import Mathlib

/-!
# Verification of the Ecosol AI-response orchestration layer

Shallow embedding of `src/services/geminiService.ts`: the error classifier
(`safeGenAIRequest`), the JSON repair engine (`tryRepairJson`), the grounding
extractor, the structured request builders and the per-task orchestrators
(`getEnvironmentalSolution`, `generateSustainabilityPlan`, `getEcoStatus`).

JavaScript strings are modelled as Lean `String`, thrown errors by their
message string (`Except String`), and `undefined`/absent fields by `Option`.
`JSON.parse` (an external runtime primitive) is modelled as an executable
strict JSON parser whose error messages carry the failing input position,
as the real engine's messages do.
-/

/-- JSON values, as produced by a strict parse.  Number lexemes are kept as
strings, since the service never computes with numeric fields. -/
inductive Json where
  | null : Json
  | bool (b : Bool) : Json
  | num (lexeme : String) : Json
  | str (s : String) : Json
  | arr (elems : List Json) : Json
  | obj (fields : List (String × Json)) : Json
deriving Repr

/-- Skip whitespace, tracking the input position. -/
def skipWs : List Char → Nat → List Char × Nat
  | [], pos => ([], pos)
  | c :: cs, pos =>
    if c.isWhitespace then skipWs cs (pos + 1) else (c :: cs, pos)

/-- Error message for an unexpected token or end of input, in the style of the
JavaScript engine's JSON.parse messages. -/
def unexpectedMsg (cs : List Char) (pos : Nat) : String :=
  match cs with
  | [] => "Unexpected end of JSON input"
  | _ => "Unexpected token in JSON at position " ++ toString pos

/-- Parse the body of a string literal (the opening quote already consumed),
returning the content, the rest of the input and the next position. -/
def parseStrBody : List Char → Nat → List Char → Except String (String × List Char × Nat)
  | [], _, _ => Except.error "Unexpected end of JSON input"
  | '"' :: rest, pos, acc => Except.ok (String.mk acc.reverse, rest, pos + 1)
  | '\\' :: [], _, _ => Except.error "Unexpected end of JSON input"
  | '\\' :: e :: rest, pos, acc => parseStrBody rest (pos + 2) (e :: '\\' :: acc)
  | c :: rest, pos, acc => parseStrBody rest (pos + 1) (c :: acc)

/-- Parse a number literal: optional minus sign, digits, optional fraction. -/
def parseNumber (cs : List Char) (pos : Nat) : Except String (Json × List Char × Nat) :=
  let startPos := pos
  let (sign, cs1, p1) : List Char × List Char × Nat :=
    match cs with
    | '-' :: r => (['-'], r, pos + 1)
    | _ => ([], cs, pos)
  let ds := cs1.takeWhile Char.isDigit
  if ds.isEmpty then
    Except.error ("Unexpected token in JSON at position " ++ toString startPos)
  else
    let cs2 := cs1.drop ds.length
    let p2 := p1 + ds.length
    match cs2 with
    | '.' :: cs3 =>
      let fs := cs3.takeWhile Char.isDigit
      if fs.isEmpty then
        Except.error ("Unexpected token in JSON at position " ++ toString (p2 + 1))
      else
        Except.ok (Json.num (String.mk (sign ++ ds ++ '.' :: fs)),
                   cs3.drop fs.length, p2 + 1 + fs.length)
    | _ => Except.ok (Json.num (String.mk (sign ++ ds)), cs2, p2)

mutual

/-- Parse one JSON value at the head of the input (no leading whitespace). -/
def parseValue (fuel : Nat) (cs : List Char) (pos : Nat) :
    Except String (Json × List Char × Nat) :=
  match fuel with
  | 0 => Except.error "JSON nesting too deep"
  | fuel + 1 =>
    match cs with
    | [] => Except.error "Unexpected end of JSON input"
    | c :: rest =>
      if c = '\x7b' then parseObject fuel rest (pos + 1)
      else if c = '[' then parseArray fuel rest (pos + 1)
      else if c = '"' then
        match parseStrBody rest (pos + 1) [] with
        | Except.error e => Except.error e
        | Except.ok (s, cs1, p1) => Except.ok (Json.str s, cs1, p1)
      else if ("true".toList).isPrefixOf cs then
        Except.ok (Json.bool true, cs.drop 4, pos + 4)
      else if ("false".toList).isPrefixOf cs then
        Except.ok (Json.bool false, cs.drop 5, pos + 5)
      else if ("null".toList).isPrefixOf cs then
        Except.ok (Json.null, cs.drop 4, pos + 4)
      else if c.isDigit ∨ c = '-' then parseNumber cs pos
      else Except.error ("Unexpected token in JSON at position " ++ toString pos)
termination_by structural fuel

/-- Parse an object body, the opening brace already consumed. -/
def parseObject (fuel : Nat) (cs : List Char) (pos : Nat) :
    Except String (Json × List Char × Nat) :=
  match fuel with
  | 0 => Except.error "JSON nesting too deep"
  | fuel + 1 =>
    let (cs1, p1) := skipWs cs pos
    match cs1 with
    | '\x7d' :: rest => Except.ok (Json.obj [], rest, p1 + 1)
    | _ => parseMembers fuel cs1 p1 []
termination_by structural fuel

/-- Parse the members of a non-empty object. -/
def parseMembers (fuel : Nat) (cs : List Char) (pos : Nat)
    (acc : List (String × Json)) : Except String (Json × List Char × Nat) :=
  match fuel with
  | 0 => Except.error "JSON nesting too deep"
  | fuel + 1 =>
    let (cs1, p1) := skipWs cs pos
    match cs1 with
    | '"' :: rest =>
      match parseStrBody rest (p1 + 1) [] with
      | Except.error e => Except.error e
      | Except.ok (key, cs2, p2) =>
        let (cs3, p3) := skipWs cs2 p2
        match cs3 with
        | ':' :: rest3 =>
          let (cs4, p4) := skipWs rest3 (p3 + 1)
          match parseValue fuel cs4 p4 with
          | Except.error e => Except.error e
          | Except.ok (v, cs5, p5) =>
            let (cs6, p6) := skipWs cs5 p5
            match cs6 with
            | ',' :: rest6 => parseMembers fuel rest6 (p6 + 1) ((key, v) :: acc)
            | '\x7d' :: rest6 => Except.ok (Json.obj ((key, v) :: acc).reverse, rest6, p6 + 1)
            | _ => Except.error (unexpectedMsg cs6 p6)
        | _ => Except.error (unexpectedMsg cs3 p3)
    | _ => Except.error (unexpectedMsg cs1 p1)
termination_by structural fuel

/-- Parse an array body, the opening bracket already consumed. -/
def parseArray (fuel : Nat) (cs : List Char) (pos : Nat) :
    Except String (Json × List Char × Nat) :=
  match fuel with
  | 0 => Except.error "JSON nesting too deep"
  | fuel + 1 =>
    let (cs1, p1) := skipWs cs pos
    match cs1 with
    | ']' :: rest => Except.ok (Json.arr [], rest, p1 + 1)
    | _ => parseItems fuel cs1 p1 []
termination_by structural fuel

/-- Parse the items of a non-empty array. -/
def parseItems (fuel : Nat) (cs : List Char) (pos : Nat) (acc : List Json) :
    Except String (Json × List Char × Nat) :=
  match fuel with
  | 0 => Except.error "JSON nesting too deep"
  | fuel + 1 =>
    match parseValue fuel cs pos with
    | Except.error e => Except.error e
    | Except.ok (v, cs1, p1) =>
      let (cs2, p2) := skipWs cs1 p1
      match cs2 with
      | ',' :: rest2 =>
        let (cs3, p3) := skipWs rest2 (p2 + 1)
        parseItems fuel cs3 p3 (v :: acc)
      | ']' :: rest2 => Except.ok (Json.arr (v :: acc).reverse, rest2, p2 + 1)
      | _ => Except.error (unexpectedMsg cs2 p2)
termination_by structural fuel

end

/-- Model of the JavaScript runtime's `JSON.parse`: strict parse of one JSON
value with surrounding whitespace, rejecting trailing input.  Throwing is
modelled by `Except.error` carrying the message string. -/
def JSON.parse (s : String) : Except String Json :=
  let cs := s.toList
  let (cs1, p1) := skipWs cs 0
  match parseValue (2 * cs.length + 4) cs1 p1 with
  | Except.error e => Except.error e
  | Except.ok (v, cs2, p2) =>
    let (cs3, p3) := skipWs cs2 p2
    match cs3 with
    | [] => Except.ok v
    | _ => Except.error ("Unexpected non-whitespace character after JSON at position "
                          ++ toString p3)

/-- JavaScript `String.prototype.trim`, over the whitespace characters shared
with Lean's `Char.isWhitespace`. -/
def jsTrim (s : String) : String :=
  String.mk (((s.toList.dropWhile Char.isWhitespace).reverse.dropWhile
    Char.isWhitespace).reverse)

/-- JavaScript `String.prototype.endsWith`. -/
def jsEndsWith (s suffix : String) : Bool :=
  suffix.toList.isSuffixOf s.toList

/-- Number of occurrences of a character in a string, as computed by
`(s.match(/c/g) || []).length` in the source. -/
def countChar (c : Char) (s : String) : Nat :=
  s.toList.count c

/-- `tryRepairJson` from `src/services/geminiService.ts`: trim; if the result
does not end with a closing brace, close an unterminated string literal unless
the text already ends with a quote, then close one unmatched bracket and one
unmatched brace by count. -/
def tryRepairJson (jsonStr : String) : String :=
  let cleaned := jsTrim jsonStr
  if jsEndsWith cleaned "\x7d" then cleaned
  else
    let cleaned := if jsEndsWith cleaned "\"" then cleaned else cleaned ++ "\""
    let cleaned :=
      if countChar '[' cleaned > countChar ']' cleaned then cleaned ++ "]" else cleaned
    let cleaned :=
      if countChar '\x7b' cleaned > countChar '\x7d' cleaned then cleaned ++ "\x7d"
      else cleaned
    cleaned

/-- JavaScript `String.prototype.includes`: substring test. -/
def includesAux (pat : List Char) : List Char → Bool
  | [] => pat.isEmpty
  | c :: cs => pat.isPrefixOf (c :: cs) || includesAux pat cs

/-- `s.includes(pat)` from JavaScript. -/
def includes (s pat : String) : Bool :=
  includesAux pat.toList s.toList

/-- JavaScript `a || b` for an optional string: `undefined` and `""` are
both falsy, so either is replaced by the default. -/
def jsOr (t : Option String) (d : String) : String :=
  match t with
  | none => d
  | some s => if s == "" then d else s

/-- `safeGenAIRequest` from `src/services/geminiService.ts`: run the request
and catch any thrown error; if its message contains `"429"` or
`"RESOURCE_EXHAUSTED"`, rethrow as `API_QUOTA_EXCEEDED`, otherwise log and
rethrow the original error.  The `requestFn` argument is the outcome of the
wrapped computation (errors thrown anywhere inside it, including local
`JSON.parse` errors, land in the catch). -/
def safeGenAIRequest {α : Type} (requestFn : Except String α) : Except String α :=
  match requestFn with
  | Except.ok a => Except.ok a
  | Except.error error =>
    let errorMsg := error
    if includes errorMsg "429" || includes errorMsg "RESOURCE_EXHAUSTED" then
      Except.error "API_QUOTA_EXCEEDED"
    else
      Except.error error

/-- `chunk.web` payload: both fields may be absent. -/
structure WebChunk where
  uri : Option String
  title : Option String
deriving Repr

/-- One grounding chunk of the backend response. -/
structure GroundingChunk where
  web : Option WebChunk
deriving Repr

/-- `candidate.groundingMetadata`. -/
structure GroundingMetadata where
  groundingChunks : Option (List GroundingChunk)
deriving Repr

/-- One entry of `response.candidates`. -/
structure Candidate where
  groundingMetadata : Option GroundingMetadata
deriving Repr

/-- The backend response consumed by the orchestrators: the text payload
(possibly absent) and the candidate list carrying grounding metadata. -/
structure GenResponse where
  text : Option String
  candidates : Option (List Candidate)
deriving Repr

/-- `GroundingSource` from `src/services/geminiService.ts`. -/
structure GroundingSource where
  title : String
  uri : String
deriving Repr, DecidableEq

/-- The grounding-extraction loop of `getEnvironmentalSolution` (lines
112-120): walk `response.candidates?.[0]?.groundingMetadata?.groundingChunks`
if present and push every chunk whose `web.uri` and `web.title` are both
truthy (present and non-empty). -/
def extractSources (response : GenResponse) : List GroundingSource :=
  match ((response.candidates.bind List.head?).bind
      Candidate.groundingMetadata).bind GroundingMetadata.groundingChunks with
  | none => []
  | some groundingChunks =>
    groundingChunks.foldl (fun sources chunk =>
      match chunk.web with
      | some ⟨some uri, some title⟩ =>
        if uri != "" && title != "" then sources ++ [⟨title, uri⟩] else sources
      | _ => sources) []

/-- Result of `getEnvironmentalSolution`: the strict-parse branch returns
`{ ...data, sources }` (modelled as `sources = some _`); the repaired-parse
branch returns the bare `JSON.parse(repairedJson)` value with no sources
attached (`sources = none`). -/
structure SolutionResult where
  data : Json
  sources : Option (List GroundingSource)
deriving Repr

/-- Outcome of the external backend call made inside an orchestrator. -/
inductive BackendOutcome where
  | success (response : GenResponse)
  | failure (message : String)

/-- Body of `getEnvironmentalSolution` after the backend call: strict parse of
`response.text || "\x7b\x7d"`; on success attach grounding sources; on failure
repair once and re-parse, returning the bare repaired value or the re-parse
error. -/
def getEnvironmentalSolutionBody (response : GenResponse) : Except String SolutionResult :=
  let jsonText := jsOr response.text "\x7b\x7d"
  match JSON.parse jsonText with
  | Except.ok data => Except.ok ⟨data, some (extractSources response)⟩
  | Except.error _ =>
    let repairedJson := tryRepairJson jsonText
    match JSON.parse repairedJson with
    | Except.ok d => Except.ok ⟨d, none⟩
    | Except.error e => Except.error e

/-- `getEnvironmentalSolution`: the whole body, backend call included, runs
inside `safeGenAIRequest`'s try/catch. -/
def getEnvironmentalSolution (outcome : BackendOutcome) : Except String SolutionResult :=
  safeGenAIRequest (match outcome with
    | BackendOutcome.failure msg => Except.error msg
    | BackendOutcome.success response => getEnvironmentalSolutionBody response)

/-- Number of times `getEnvironmentalSolutionBody` enters the catch branch
that invokes `tryRepairJson` (the branch calls it exactly once). -/
def repairAttempts (response : GenResponse) : Nat :=
  match JSON.parse (jsOr response.text "\x7b\x7d") with
  | Except.ok _ => 0
  | Except.error _ => 1

/-- Body of `generateSustainabilityPlan` after the backend call: a bare
strict parse of `response.text || "\x7b\x7d"`, with no repair. -/
def generateSustainabilityPlanBody (response : GenResponse) : Except String Json :=
  JSON.parse (jsOr response.text "\x7b\x7d")

/-- `generateSustainabilityPlan`, wrapped in `safeGenAIRequest`. -/
def generateSustainabilityPlan (outcome : BackendOutcome) : Except String Json :=
  safeGenAIRequest (match outcome with
    | BackendOutcome.failure msg => Except.error msg
    | BackendOutcome.success response => generateSustainabilityPlanBody response)

/-- Body of `getEcoStatus` after the backend call: a bare strict parse of
`response.text || "\x7b\x7d"`, with no repair and no grounding extraction. -/
def getEcoStatusBody (response : GenResponse) : Except String Json :=
  JSON.parse (jsOr response.text "\x7b\x7d")

/-- `getEcoStatus`, wrapped in `safeGenAIRequest`. -/
def getEcoStatus (outcome : BackendOutcome) : Except String Json :=
  safeGenAIRequest (match outcome with
    | BackendOutcome.failure msg => Except.error msg
    | BackendOutcome.success response => getEcoStatusBody response)

/-- Schema node kinds used by the response schemas (`Type.STRING`,
`Type.INTEGER`, `Type.ARRAY`, `Type.OBJECT`, string enumerations). -/
inductive SchemaKind where
  | string : SchemaKind
  | stringEnum (vals : List String) : SchemaKind
  | integer : SchemaKind
  | array (items : SchemaKind) : SchemaKind
  | object (properties : List (String × SchemaKind)) (required : List String) : SchemaKind
deriving Repr

/-- `Object.values(Category)` from `src/types.ts`. -/
def categoryValues : List String :=
  ["Climate Change", "Water", "Air", "Noise & Global Change", "Eco Vision"]

/-- The `responseSchema` of the research-report request
(`getEnvironmentalSolution`, lines 84-103). -/
def researchReportSchema : SchemaKind :=
  SchemaKind.object
    [("topic", SchemaKind.string),
     ("summary", SchemaKind.string),
     ("introduction", SchemaKind.string),
     ("explanation", SchemaKind.string),
     ("background", SchemaKind.string),
     ("causes", SchemaKind.array SchemaKind.string),
     ("impacts", SchemaKind.array SchemaKind.string),
     ("solutions", SchemaKind.array SchemaKind.string),
     ("examples", SchemaKind.array SchemaKind.string),
     ("preventionTips", SchemaKind.array SchemaKind.string),
     ("conclusion", SchemaKind.string),
     ("visualPrompt", SchemaKind.string),
     ("category", SchemaKind.stringEnum categoryValues),
     ("section", SchemaKind.stringEnum ["Climate", "Water", "Air", "Noise", "Vision"])]
    ["topic", "summary", "introduction", "explanation", "background", "causes",
     "impacts", "solutions", "examples", "preventionTips", "conclusion",
     "visualPrompt", "category", "section"]

/-- A generation request as assembled by the service: model identifier,
instruction text, whether the `googleSearch` tool is enabled, the optional
thinking budget, and the response schema. -/
structure GenRequest where
  model : String
  contents : String
  useSearchTool : Bool
  thinkingBudget : Option Nat
  responseMimeType : Option String
  responseSchema : Option SchemaKind
deriving Repr

/-- The instruction text of the research-report request (template literal of
`getEnvironmentalSolution`, lines 61-79), with the three parameters
interpolated. -/
def researchReportContents (prompt sectionName languageName : String) : String :=
  "Act as a world-class environmental scientist. Analyze the following environmental problem: \""
    ++ prompt ++ "\" in the context of \"" ++ sectionName ++ "\".\n\n"
    ++ "Use Google Search to find current scientific data and statistics.\n\n"
    ++ "Response requirements in " ++ languageName ++ ":\n"
    ++ "1. Topic: Professional title.\n"
    ++ "2. Summary: Simple 2-sentence overview.\n"
    ++ "3. Introduction: 2-3 paragraph overview.\n"
    ++ "4. Explanation: Provide a deep technical analysis. IMPORTANT: Keep this field under 3000 characters to ensure the JSON remains valid and fits within the response window.\n"
    ++ "5. Background: Context and history.\n"
    ++ "6. Causes: Primary drivers.\n"
    ++ "7. Impacts: Biological and societal impacts.\n"
    ++ "8. Solutions: Practical remediation steps.\n"
    ++ "9. Examples: Global case studies.\n"
    ++ "10. Prevention Tips: Long-term strategies.\n"
    ++ "11. Conclusion: Future outlook.\n"
    ++ "12. Visual Prompt: Detailed ENGLISH prompt for a scientific diagram.\n\n"
    ++ "CRITICAL: Ensure the response is VALID JSON. Do not let strings exceed 3000 characters."

/-- The research-report request built by `getEnvironmentalSolution`
(lines 59-105): search tool enabled, thinking budget 4000, JSON mime type,
and the full response schema. -/
def researchReportRequest (prompt sectionName languageName : String) : GenRequest :=
  { model := "gemini-3-pro-preview"
    contents := researchReportContents prompt sectionName languageName
    useSearchTool := true
    thinkingBudget := some 4000
    responseMimeType := some "application/json"
    responseSchema := some researchReportSchema }

/-! ## Helper definitions used by the claim statements -/

/-- The repair policy exactly as the specification words it (spec 4.2):
trim; return unchanged if the result ends with a closing brace; otherwise
append one quote unless the text already ends with one, then one closing
bracket and one closing brace when their opening counts exceed the closing
counts. -/
def repairPolicySpec (s : String) : String :=
  let t := jsTrim s
  if jsEndsWith t "\x7d" then t
  else
    let t1 := if jsEndsWith t "\"" then t else t ++ "\""
    let t2 := if countChar '[' t1 > countChar ']' t1 then t1 ++ "]" else t1
    if countChar '\x7b' t2 > countChar '\x7d' t2 then t2 ++ "\x7d" else t2

/-- A grounding chunk carrying both a non-empty URI and a non-empty title. -/
def chunkComplete (chunk : GroundingChunk) : Bool :=
  match chunk.web with
  | some ⟨some uri, some title⟩ => uri != "" && title != ""
  | _ => false

/-- The source read off a complete grounding chunk. -/
def chunkSource (chunk : GroundingChunk) : GroundingSource :=
  match chunk.web with
  | some ⟨some uri, some title⟩ => ⟨title, uri⟩
  | _ => ⟨"", ""⟩

/-- Field lookup on a parsed JSON object. -/
def Json.field (j : Json) (name : String) : Option Json :=
  match j with
  | Json.obj fields => fields.lookup name
  | _ => none

/-- Names of the required fields of an object schema. -/
def schemaRequired : SchemaKind → List String
  | SchemaKind.object _ req => req
  | _ => []

/-- Names of the declared properties of an object schema. -/
def schemaPropertyNames : SchemaKind → List String
  | SchemaKind.object props _ => props.map Prod.fst
  | _ => []

/-- A backend text payload whose first parse error sits at input position 429:
an opened array, interior whitespace, then an invalid token.  The engine's
parse-error message therefore contains the substring `"429"`, and the text
neither starts nor ends with whitespace, so repair leaves the bad token (and
the error position) in place. -/
def text429 : String := "[" ++ String.mk (List.replicate 428 ' ') ++ "!"

/-- A backend response carrying `text429` and no candidates. -/
def response429 : GenResponse := ⟨some text429, none⟩

/-! ## Helper lemmas -/

theorem includesAux_append_of_right (pat l2 : List Char)
    (h : includesAux pat l2 = true) (l1 : List Char) :
    includesAux pat (l1 ++ l2) = true := by
  induction l1 with
  | nil => simpa using h
  | cons c cs ih => simp [includesAux, ih]

theorem includes_append_right (a b pat : String) (h : includes b pat = true) :
    includes (a ++ b) pat = true := by
  unfold includes at *
  have hd : (a ++ b).toList = a.toList ++ b.toList := String.data_append a b
  rw [hd]
  exact includesAux_append_of_right _ _ h _

theorem extract_foldl (chunks : List GroundingChunk) (acc : List GroundingSource) :
    chunks.foldl (fun sources chunk =>
      match chunk.web with
      | some ⟨some uri, some title⟩ =>
        if uri != "" && title != "" then sources ++ [⟨title, uri⟩] else sources
      | _ => sources) acc
      = acc ++ (chunks.filter chunkComplete).map chunkSource := by
  induction chunks generalizing acc with
  | nil => simp
  | cons chunk rest ih =>
    rw [List.foldl_cons, ih]
    rcases chunk with ⟨_ | ⟨_ | u, _ | t⟩⟩
    · simp [chunkComplete, List.filter_cons]
    · simp [chunkComplete, List.filter_cons]
    · simp [chunkComplete, List.filter_cons]
    · simp [chunkComplete, List.filter_cons]
    · by_cases h : (u != "" && t != "") = true
      · simp [chunkComplete, chunkSource, List.filter_cons, h]
      · simp [chunkComplete, chunkSource, List.filter_cons, h]

/-! ## Claim theorems -/

/-- C3: error classification is total and two-valued: a failure message
containing `"429"` or `"RESOURCE_EXHAUSTED"` yields the quota-exceeded error,
any other message is propagated unchanged, and classification always returns
one of the two kinds. -/
theorem classify_total_two_valued (msg : String) :
    ((includes msg "429" = true ∨ includes msg "RESOURCE_EXHAUSTED" = true) →
      safeGenAIRequest (Except.error msg : Except String Json) =
        Except.error "API_QUOTA_EXCEEDED") ∧
    (includes msg "429" = false → includes msg "RESOURCE_EXHAUSTED" = false →
      safeGenAIRequest (Except.error msg : Except String Json) = Except.error msg) ∧
    ∃ out, safeGenAIRequest (Except.error msg : Except String Json) = Except.error out ∧
      (out = "API_QUOTA_EXCEEDED" ∨ out = msg) := by
  unfold safeGenAIRequest
  refine ⟨?_, ?_, ?_⟩
  · rintro (h | h) <;> simp [h]
  · intro h1 h2
    simp [h1, h2]
  · by_cases h : (includes msg "429" || includes msg "RESOURCE_EXHAUSTED") = true
    · exact ⟨"API_QUOTA_EXCEEDED", by simp [h], Or.inl rfl⟩
    · exact ⟨msg, by simp [h], Or.inr rfl⟩

/-- Witness for C3 at two concrete messages. -/
theorem classify_total_two_valued_witness :
    safeGenAIRequest (Except.error "429 Too Many Requests" : Except String Json) =
      Except.error "API_QUOTA_EXCEEDED" ∧
    safeGenAIRequest (Except.error "socket hang up" : Except String Json) =
      Except.error "socket hang up" :=
  ⟨(classify_total_two_valued "429 Too Many Requests").1 (Or.inl (by decide)),
   (classify_total_two_valued "socket hang up").2.1 (by decide) (by decide)⟩

/-- C4: the repair engine implements exactly the one-pass trim /
close-string / close-bracket / close-brace policy, and yields the two
documented example repairs. -/
theorem repair_one_pass_policy :
    (∀ s, tryRepairJson s = repairPolicySpec s) ∧
    tryRepairJson "\x7b\"a\": \"hello" = "\x7b\"a\": \"hello\"\x7d" ∧
    tryRepairJson "\x7b\"list\": [\"x\", \"y\"" = "\x7b\"list\": [\"x\", \"y\"]\x7d" :=
  ⟨fun _ => rfl, rfl, rfl⟩

/-- C7: grounding extraction returns exactly the chunks with both a non-empty
URI and a non-empty title, in order, with no sorting or deduplication; an
absent chunk list (or candidate list, or metadata) yields an empty list; a
list of one complete chunk and one chunk missing its title yields exactly the
complete chunk. -/
theorem grounding_extraction_exact (text : Option String)
    (cands : List Candidate) (chunks : List GroundingChunk) :
    extractSources ⟨text, some (⟨some ⟨some chunks⟩⟩ :: cands)⟩ =
      (chunks.filter chunkComplete).map chunkSource ∧
    extractSources ⟨text, none⟩ = [] ∧
    extractSources ⟨text, some (⟨some ⟨none⟩⟩ :: cands)⟩ = [] ∧
    extractSources ⟨text, some (⟨none⟩ :: cands)⟩ = [] ∧
    extractSources ⟨text, some [⟨some ⟨some [⟨some ⟨some "https://a.example", some "A"⟩⟩,
        ⟨some ⟨some "https://b.example", none⟩⟩]⟩⟩]⟩ =
      [⟨"A", "https://a.example"⟩] := by
  refine ⟨?_, rfl, rfl, rfl, rfl⟩
  have h := extract_foldl chunks []
  rw [List.nil_append] at h
  exact h

/-- C8: for every prompt, section and language, building the research-report
request produces a request that enables search grounding, sets the extended
4000-token reasoning budget, declares all fourteen top-level schema fields as
required, and embeds the explicit 3000-character bound in the instruction
text; the builder is a total function, so building never fails. -/
theorem research_request_invariants (prompt sectionName languageName : String) :
    (researchReportRequest prompt sectionName languageName).useSearchTool = true ∧
    (researchReportRequest prompt sectionName languageName).thinkingBudget = some 4000 ∧
    (researchReportRequest prompt sectionName languageName).responseSchema =
      some researchReportSchema ∧
    schemaRequired researchReportSchema = schemaPropertyNames researchReportSchema ∧
    (schemaRequired researchReportSchema).length = 14 ∧
    includes (researchReportRequest prompt sectionName languageName).contents "3000" =
      true := by
  refine ⟨rfl, rfl, rfl, rfl, rfl, ?_⟩
  show includes (researchReportContents prompt sectionName languageName) "3000" = true
  unfold researchReportContents
  exact includes_append_right _ _ _ (by decide)

/-- C10: repair only appends: the whitespace-trimmed input is always a prefix
of the output, followed (in order) by at most one quote, at most one closing
bracket and at most one closing brace, so the output length never exceeds the
trimmed length plus three. -/
theorem repair_only_appends (s : String) :
    ∃ q b c : String,
      tryRepairJson s = jsTrim s ++ q ++ b ++ c ∧
      (q = "" ∨ q = "\"") ∧ (b = "" ∨ b = "]") ∧ (c = "" ∨ c = "\x7d") ∧
      (tryRepairJson s).length ≤ (jsTrim s).length + 3 := by
  have main : ∃ q b c : String,
      tryRepairJson s = jsTrim s ++ q ++ b ++ c ∧
      (q = "" ∨ q = "\"") ∧ (b = "" ∨ b = "]") ∧ (c = "" ∨ c = "\x7d") := by
    by_cases h1 : jsEndsWith (jsTrim s) "\x7d" = true
    · exact ⟨"", "", "", by simp [tryRepairJson, h1, String.append_empty],
        Or.inl rfl, Or.inl rfl, Or.inl rfl⟩
    · by_cases h2 : jsEndsWith (jsTrim s) "\"" = true
      · by_cases h3 : countChar '[' (jsTrim s) > countChar ']' (jsTrim s)
        · by_cases h4 : countChar '\x7b' (jsTrim s ++ "]") >
              countChar '\x7d' (jsTrim s ++ "]")
          · exact ⟨"", "]", "\x7d",
              by simp [tryRepairJson, h1, h2, h3, h4, String.append_empty],
              Or.inl rfl, Or.inr rfl, Or.inr rfl⟩
          · exact ⟨"", "]", "",
              by simp [tryRepairJson, h1, h2, h3, h4, String.append_empty],
              Or.inl rfl, Or.inr rfl, Or.inl rfl⟩
        · by_cases h4 : countChar '\x7b' (jsTrim s) > countChar '\x7d' (jsTrim s)
          · exact ⟨"", "", "\x7d",
              by simp [tryRepairJson, h1, h2, h3, h4, String.append_empty],
              Or.inl rfl, Or.inl rfl, Or.inr rfl⟩
          · exact ⟨"", "", "",
              by simp [tryRepairJson, h1, h2, h3, h4, String.append_empty],
              Or.inl rfl, Or.inl rfl, Or.inl rfl⟩
      · by_cases h3 : countChar '[' (jsTrim s ++ "\"") > countChar ']' (jsTrim s ++ "\"")
        · by_cases h4 : countChar '\x7b' ((jsTrim s ++ "\"") ++ "]") >
              countChar '\x7d' ((jsTrim s ++ "\"") ++ "]")
          · exact ⟨"\"", "]", "\x7d",
              by simp [tryRepairJson, h1, h2, h3, h4, String.append_empty],
              Or.inr rfl, Or.inr rfl, Or.inr rfl⟩
          · exact ⟨"\"", "]", "",
              by simp [tryRepairJson, h1, h2, h3, h4, String.append_empty],
              Or.inr rfl, Or.inr rfl, Or.inl rfl⟩
        · by_cases h4 : countChar '\x7b' (jsTrim s ++ "\"") >
              countChar '\x7d' (jsTrim s ++ "\"")
          · exact ⟨"\"", "", "\x7d",
              by simp [tryRepairJson, h1, h2, h3, h4, String.append_empty],
              Or.inr rfl, Or.inl rfl, Or.inr rfl⟩
          · exact ⟨"\"", "", "",
              by simp [tryRepairJson, h1, h2, h3, h4, String.append_empty],
              Or.inr rfl, Or.inl rfl, Or.inl rfl⟩
  obtain ⟨q, b, c, heq, hq, hb, hc⟩ := main
  have lq : q.length ≤ 1 := by rcases hq with rfl | rfl <;> decide
  have lb : b.length ≤ 1 := by rcases hb with rfl | rfl <;> decide
  have lc : c.length ≤ 1 := by rcases hc with rfl | rfl <;> decide
  refine ⟨q, b, c, heq, hq, hb, hc, ?_⟩
  rw [heq]
  simp only [String.length_append]
  omega

/-- C9: an empty or missing text payload is silently replaced by the empty
object literal, the strict parse succeeds, and the caller receives an object
with no fields (for the research report, paired with the extracted — empty,
when no chunks are present — sources array). -/
theorem empty_payload_defaults (response : GenResponse)
    (h : response.text = none ∨ response.text = some "") :
    getEnvironmentalSolution (BackendOutcome.success response) =
      Except.ok ⟨Json.obj [], some (extractSources response)⟩ ∧
    (response.candidates = none →
      getEnvironmentalSolution (BackendOutcome.success response) =
        Except.ok ⟨Json.obj [], some []⟩) ∧
    generateSustainabilityPlan (BackendOutcome.success response) =
      Except.ok (Json.obj []) ∧
    getEcoStatus (BackendOutcome.success response) = Except.ok (Json.obj []) ∧
    (∀ name, (Json.obj []).field name = none) := by
  have htext : jsOr response.text "\x7b\x7d" = "\x7b\x7d" := by
    rcases h with h | h <;> simp [jsOr, h]
  have hparse : JSON.parse (jsOr response.text "\x7b\x7d") = Except.ok (Json.obj []) := by
    rw [htext]
    rfl
  refine ⟨?_, ?_, ?_, ?_, fun _ => rfl⟩
  · simp [getEnvironmentalSolution, getEnvironmentalSolutionBody, safeGenAIRequest, hparse]
  · intro hc
    simp [getEnvironmentalSolution, getEnvironmentalSolutionBody, safeGenAIRequest, hparse,
      extractSources, hc]
  · simp [generateSustainabilityPlan, generateSustainabilityPlanBody, safeGenAIRequest,
      hparse]
  · simp [getEcoStatus, getEcoStatusBody, safeGenAIRequest, hparse]

/-- Witness for C9 at the response with absent text and no candidates. -/
theorem empty_payload_defaults_witness :
    getEnvironmentalSolution (BackendOutcome.success ⟨none, none⟩) =
      Except.ok ⟨Json.obj [], some []⟩ :=
  (empty_payload_defaults ⟨none, none⟩ (Or.inl rfl)).2.1 rfl

/-- C1 counterexample: the three task operations do not follow the identical
state machine.  For a truncated payload whose one-pass repair parses, the
research-report operation repairs and succeeds, but the sustainability-plan
and planetary-status operations fail without ever invoking the repair
engine. -/
theorem tasks_not_identical_counterexample :
    JSON.parse "\x7b\"title\": \"x" = Except.error "Unexpected end of JSON input" ∧
    JSON.parse (tryRepairJson "\x7b\"title\": \"x") =
      Except.ok (Json.obj [("title", Json.str "x")]) ∧
    getEnvironmentalSolution (BackendOutcome.success ⟨some "\x7b\"title\": \"x", none⟩) =
      Except.ok ⟨Json.obj [("title", Json.str "x")], none⟩ ∧
    generateSustainabilityPlan (BackendOutcome.success ⟨some "\x7b\"title\": \"x", none⟩) =
      Except.error "Unexpected end of JSON input" ∧
    getEcoStatus (BackendOutcome.success ⟨some "\x7b\"title\": \"x", none⟩) =
      Except.error "Unexpected end of JSON input" :=
  ⟨rfl, rfl, rfl, rfl, rfl⟩

/-- C1 amended: the three operations share the classifier wrapper and the
empty-text default, but only the research-report operation invokes the repair
engine on strict-parse failure (exactly once, re-parsing its output); the
plan and status operations propagate the strict-parse failure through the
classifier with no repair attempt. -/
theorem tasks_state_machines (response : GenResponse) (text e : String)
    (ht : response.text = some text) (hne : text ≠ "")
    (hp : JSON.parse text = Except.error e) :
    repairAttempts response = 1 ∧
    (∀ d, JSON.parse (tryRepairJson text) = Except.ok d →
      getEnvironmentalSolution (BackendOutcome.success response) =
        Except.ok ⟨d, none⟩) ∧
    generateSustainabilityPlan (BackendOutcome.success response) =
      safeGenAIRequest (Except.error e : Except String Json) ∧
    getEcoStatus (BackendOutcome.success response) =
      safeGenAIRequest (Except.error e : Except String Json) := by
  have htext : jsOr response.text "\x7b\x7d" = text := by
    simp [jsOr, ht, hne]
  refine ⟨?_, ?_, ?_, ?_⟩
  · simp [repairAttempts, htext, hp]
  · intro d hd
    simp [getEnvironmentalSolution, getEnvironmentalSolutionBody, safeGenAIRequest,
      htext, hp, hd]
  · simp [generateSustainabilityPlan, generateSustainabilityPlanBody, htext, hp]
  · simp [getEcoStatus, getEcoStatusBody, htext, hp]

/-- Witness for the amended C1 at a concrete truncated payload. -/
theorem tasks_state_machines_witness :
    repairAttempts ⟨some "\x7b\"title\": \"y", none⟩ = 1 ∧
    generateSustainabilityPlan (BackendOutcome.success ⟨some "\x7b\"title\": \"y", none⟩) =
      safeGenAIRequest (Except.error "Unexpected end of JSON input" : Except String Json) ∧
    getEnvironmentalSolution (BackendOutcome.success ⟨some "\x7b\"title\": \"y", none⟩) =
      Except.ok ⟨Json.obj [("title", Json.str "y")], none⟩ := by
  have h := tasks_state_machines ⟨some "\x7b\"title\": \"y", none⟩ "\x7b\"title\": \"y"
    "Unexpected end of JSON input" rfl (by decide) rfl
  exact ⟨h.1, h.2.2.1, h.2.1 (Json.obj [("title", Json.str "y")]) rfl⟩

/-- A response whose text succeeds only after repair, while carrying one
complete grounding chunk. -/
def responseRepairedGrounded : GenResponse :=
  ⟨some "\x7b\"a\": \"hi",
   some [⟨some ⟨some [⟨some ⟨some "https://e.example", some "E"⟩⟩]⟩⟩]⟩

/-- C2 counterexample: a search-grounded research-report call that succeeds
via the repaired-parse path returns no attached sources, although the
response carries a complete grounding chunk; so not every successful
orchestration of a grounded task attaches a sources array. -/
theorem grounded_sources_counterexample :
    JSON.parse "\x7b\"a\": \"hi" = Except.error "Unexpected end of JSON input" ∧
    extractSources responseRepairedGrounded = [⟨"E", "https://e.example"⟩] ∧
    getEnvironmentalSolution (BackendOutcome.success responseRepairedGrounded) =
      Except.ok ⟨Json.obj [("a", Json.str "hi")], none⟩ :=
  ⟨rfl, rfl, rfl⟩

/-- C2 amended: sources are attached only on the strict-parse success path of
the research-report operation (the attached array may be empty); a success
via the repaired-parse path returns the parsed object with no sources
attached, and the planetary-status operation returns the bare parsed object,
never attaching a source list. -/
theorem grounded_sources_attachment (response : GenResponse) (text : String)
    (ht : response.text = some text) (hne : text ≠ "") :
    (∀ d, JSON.parse text = Except.ok d →
      getEnvironmentalSolution (BackendOutcome.success response) =
        Except.ok ⟨d, some (extractSources response)⟩) ∧
    (∀ e d, JSON.parse text = Except.error e →
      JSON.parse (tryRepairJson text) = Except.ok d →
      getEnvironmentalSolution (BackendOutcome.success response) =
        Except.ok ⟨d, none⟩) ∧
    (∀ d, JSON.parse text = Except.ok d →
      getEcoStatus (BackendOutcome.success response) = Except.ok d) := by
  have htext : jsOr response.text "\x7b\x7d" = text := by
    simp [jsOr, ht, hne]
  refine ⟨?_, ?_, ?_⟩
  · intro d hd
    simp [getEnvironmentalSolution, getEnvironmentalSolutionBody, safeGenAIRequest,
      htext, hd]
  · intro e d he hd
    simp [getEnvironmentalSolution, getEnvironmentalSolutionBody, safeGenAIRequest,
      htext, he, hd]
  · intro d hd
    simp [getEcoStatus, getEcoStatusBody, safeGenAIRequest, htext, hd]

/-- Witness for the amended C2: strict-parse success attaches the extracted
sources. -/
theorem grounded_sources_attachment_witness :
    getEnvironmentalSolution (BackendOutcome.success
      ⟨some "\x7b\"a\": 1\x7d",
       some [⟨some ⟨some [⟨some ⟨some "https://e.example", some "E"⟩⟩]⟩⟩]⟩) =
      Except.ok ⟨Json.obj [("a", Json.num "1")], some [⟨"E", "https://e.example"⟩]⟩ :=
  (grounded_sources_attachment
    ⟨some "\x7b\"a\": 1\x7d",
     some [⟨some ⟨some [⟨some ⟨some "https://e.example", some "E"⟩⟩]⟩⟩]⟩
    "\x7b\"a\": 1\x7d" rfl (by decide)).1 (Json.obj [("a", Json.num "1")]) rfl

set_option maxRecDepth 100000 in
set_option maxHeartbeats 1000000 in
/-- C5 counterexample: when both the strict parse and the repaired parse fail
with an engine message containing "429", the operation fails — but with the
classifier's quota error, not with that parse error, because the catch in
`safeGenAIRequest` also wraps the local parsing. -/
theorem double_failure_counterexample :
    JSON.parse text429 = Except.error "Unexpected token in JSON at position 429" ∧
    JSON.parse (tryRepairJson text429) =
      Except.error "Unexpected token in JSON at position 429" ∧
    getEnvironmentalSolution (BackendOutcome.success response429) =
      Except.error "API_QUOTA_EXCEEDED" ∧
    "API_QUOTA_EXCEEDED" ≠ "Unexpected token in JSON at position 429" :=
  ⟨rfl, rfl, rfl, by decide⟩

/-- C5 amended: when the strict parse fails and the once-repaired text also
fails to parse, the operation fails as a whole — exactly one repair attempt,
no partial or degraded result — with the re-parse error as it leaves the
classifier: the parse error's message is preserved unless it contains "429"
or "RESOURCE_EXHAUSTED"; for text already ending in a closing brace, repair
returns the trimmed text, so the re-parse fails just as the original parse
did. -/
theorem double_failure_propagation (response : GenResponse) (text e1 e2 : String)
    (ht : response.text = some text) (hne : text ≠ "")
    (hp : JSON.parse text = Except.error e1)
    (hr : JSON.parse (tryRepairJson text) = Except.error e2) :
    getEnvironmentalSolution (BackendOutcome.success response) =
      safeGenAIRequest (Except.error e2 : Except String SolutionResult) ∧
    (∀ result, getEnvironmentalSolution (BackendOutcome.success response) ≠
      Except.ok result) ∧
    repairAttempts response = 1 ∧
    (includes e2 "429" = false → includes e2 "RESOURCE_EXHAUSTED" = false →
      getEnvironmentalSolution (BackendOutcome.success response) =
        Except.error e2) ∧
    (jsEndsWith (jsTrim text) "\x7d" = true →
      tryRepairJson text = jsTrim text ∧
      (jsTrim text = text → JSON.parse (tryRepairJson text) = JSON.parse text)) := by
  have htext : jsOr response.text "\x7b\x7d" = text := by
    simp [jsOr, ht, hne]
  have hbody : getEnvironmentalSolutionBody response = Except.error e2 := by
    simp [getEnvironmentalSolutionBody, htext, hp, hr]
  refine ⟨?_, ?_, ?_, ?_, ?_⟩
  · simp [getEnvironmentalSolution, hbody]
  · intro result
    simp only [getEnvironmentalSolution, hbody, safeGenAIRequest]
    split <;> simp
  · simp [repairAttempts, htext, hp]
  · intro h1 h2
    simp [getEnvironmentalSolution, hbody, safeGenAIRequest, h1, h2]
  · intro hend
    have hrep : tryRepairJson text = jsTrim text := by
      simp [tryRepairJson, hend]
    exact ⟨hrep, fun heq => by rw [hrep, heq]⟩

/-- Witness for the amended C5: a trailing-comma payload already ending in a
brace fails identically before and after the no-op repair, and the operation
fails with that parse error. -/
theorem double_failure_propagation_witness :
    getEnvironmentalSolution (BackendOutcome.success ⟨some "\x7b\"a\": 1,\x7d", none⟩) =
      Except.error "Unexpected token in JSON at position 8" ∧
    repairAttempts ⟨some "\x7b\"a\": 1,\x7d", none⟩ = 1 ∧
    tryRepairJson "\x7b\"a\": 1,\x7d" = jsTrim "\x7b\"a\": 1,\x7d" := by
  have h := double_failure_propagation ⟨some "\x7b\"a\": 1,\x7d", none⟩ "\x7b\"a\": 1,\x7d"
    "Unexpected token in JSON at position 8" "Unexpected token in JSON at position 8"
    rfl (by decide) rfl rfl
  exact ⟨h.2.2.2.1 (by decide) (by decide), h.2.2.1, (h.2.2.2.2 (by decide)).1⟩

set_option maxRecDepth 100000 in
set_option maxHeartbeats 1000000 in
/-- C6 counterexample: a local parse failure is not shielded from the error
classifier — with both parses failing at input position 429, the message
contains "429" and the failure is reported as QuotaExceeded. -/
theorem parse_error_classified_counterexample :
    JSON.parse (jsOr response429.text "\x7b\x7d") =
      Except.error "Unexpected token in JSON at position 429" ∧
    includes "Unexpected token in JSON at position 429" "429" = true ∧
    getEnvironmentalSolution (BackendOutcome.success response429) =
      Except.error "API_QUOTA_EXCEEDED" :=
  ⟨rfl, rfl, rfl⟩

/-- C6 amended: local parse failures do pass through the error classifier,
because `safeGenAIRequest`'s catch wraps the whole operation including
parsing: a final parse-error message containing "429" or
"RESOURCE_EXHAUSTED" is reported as the quota error, and any other
parse-error message is propagated unchanged. -/
theorem parse_errors_pass_classifier (response : GenResponse) (text e1 e2 : String)
    (ht : response.text = some text) (hne : text ≠ "")
    (hp : JSON.parse text = Except.error e1)
    (hr : JSON.parse (tryRepairJson text) = Except.error e2) :
    ((includes e2 "429" = true ∨ includes e2 "RESOURCE_EXHAUSTED" = true) →
      getEnvironmentalSolution (BackendOutcome.success response) =
        Except.error "API_QUOTA_EXCEEDED") ∧
    (includes e2 "429" = false → includes e2 "RESOURCE_EXHAUSTED" = false →
      getEnvironmentalSolution (BackendOutcome.success response) =
        Except.error e2) := by
  have htext : jsOr response.text "\x7b\x7d" = text := by
    simp [jsOr, ht, hne]
  have hbody : getEnvironmentalSolutionBody response = Except.error e2 := by
    simp [getEnvironmentalSolutionBody, htext, hp, hr]
  constructor
  · rintro (h | h) <;>
      simp [getEnvironmentalSolution, hbody, safeGenAIRequest, h]
  · intro h1 h2
    simp [getEnvironmentalSolution, hbody, safeGenAIRequest, h1, h2]

set_option maxRecDepth 100000 in
set_option maxHeartbeats 1000000 in
/-- Witness for the amended C6 at the position-429 payload. -/
theorem parse_errors_pass_classifier_witness :
    getEnvironmentalSolution (BackendOutcome.success response429) =
      Except.error "API_QUOTA_EXCEEDED" := by
  have h := parse_errors_pass_classifier response429 text429
    "Unexpected token in JSON at position 429"
    "Unexpected token in JSON at position 429" rfl (by decide) rfl rfl
  exact h.1 (Or.inl (by decide))
